import Mathlib

/-
Verification of the Subtrack subscription tracker (single-file React app,
`code.jsx`) against its natural-language specification.

Shallow embedding notes:
  * JavaScript numbers are modelled as exact rationals (ℚ).  Every scenario in
    the specification uses small decimal amounts for which JS double arithmetic
    and exact rational arithmetic agree at the displayed 2-decimal precision;
    NaN/Infinity never arise in the specified scenarios and are not modelled.
  * React `useState` state is gathered into one `AppState` record; each event
    handler becomes a pure function from the old state (plus the outcome of the
    one awaited external operation it performs) to the new state.
  * The external document store (Firebase Firestore) is represented by the
    list of stored subscriptions; `addDoc`/`updateDoc` are modelled by
    `applyWrite` following the interface description in the spec
    (create(doc), update(id, doc): the supplied fields overwrite the stored
    ones).  Handlers return the store operation they issue (if any) so that
    "issues a write" / "the store is unchanged" are directly statable.
-/

namespace Subtrack

/-- A subscription document as delivered by a store snapshot:
`{ id, name, cost, cycle, createdAt }` (code.jsx lines 72–75).
`createdAt` timestamps are modelled as natural numbers. -/
structure Subscription where
  id : String
  name : String
  cost : ℚ
  cycle : String
  createdAt : ℕ
deriving DecidableEq

/-- A JavaScript value that can sit in the `formCost` state: the text typed in
the cost input (a string), or the raw number copied by `startEdit`
(code.jsx line 153 stores `sub.cost`, a number, into `formCost`). -/
inductive JsVal where
  | str (s : String)
  | num (q : ℚ)
deriving DecidableEq

/-- JS truthiness for the values a `formCost` can hold: the empty string and
the number 0 are falsy, everything else modelled is truthy. -/
def JsVal.truthy : JsVal → Bool
  | .str s => !(s = "")
  | .num q => !(q = 0)

/-- Value of a digit list read in base 10. -/
def digitsToNat (l : List Char) : ℕ :=
  l.foldl (fun acc c => acc * 10 + (c.toNat - Char.toNat '0')) 0

/-- Models the JS builtin `parseFloat` on plain decimal numerals
`[+|-]digits[.digits]`, the only shape the number input produces.  Exponent
forms and the NaN result for unparseable text are outside the model (no
specified scenario reaches them); such input is mapped to 0 here. -/
def parseFloatStr (s : String) : ℚ :=
  let signAndRest : ℚ × List Char :=
    match s.toList with
    | '-' :: cs => (-1, cs)
    | '+' :: cs => (1, cs)
    | cs => (1, cs)
  let sign := signAndRest.1
  let rest := signAndRest.2
  let intPart := rest.takeWhile Char.isDigit
  let afterInt := rest.dropWhile Char.isDigit
  let fracPart :=
    match afterInt with
    | '.' :: cs => cs.takeWhile Char.isDigit
    | _ => []
  if intPart = [] ∧ fracPart = [] then 0
  else sign * ((digitsToNat intPart : ℚ) + (digitsToNat fracPart : ℚ) / 10 ^ fracPart.length)

/-- `parseFloat` applied to a form-cost value: a number parses to itself
(JS stringifies and reparses a finite number to the same value). -/
def parseFloat : JsVal → ℚ
  | .str s => parseFloatStr s
  | .num q => q

/-- The `useState` fields of the `App` component (code.jsx lines 23–39). -/
structure AppState where
  userId : Option String
  loading : Bool
  error : String
  message : String
  isAuthReady : Bool
  subscriptions : List Subscription
  totalMonthlyCost : ℚ
  totalYearlyCost : ℚ
  formName : String
  formCost : JsVal
  formCycle : String
  editingId : Option String
  geminiResponse : Option String
deriving DecidableEq

/-- Initial component state, from the `useState` initialisers. -/
def initialState : AppState :=
  { userId := none
    loading := false
    error := ""
    message := ""
    isAuthReady := false
    subscriptions := []
    totalMonthlyCost := 0
    totalYearlyCost := 0
    formName := ""
    formCost := .str ""
    formCycle := "monthly"
    editingId := none
    geminiResponse := none }

/-! ### Aggregator (onSnapshot callback, code.jsx lines 80–97) -/

/-- One iteration of the `subscriptionsList.forEach` loop: start both
equivalents at `sub.cost`; if the cycle is `yearly` divide the monthly one by
12, else if it is `monthly` multiply the yearly one by 12; add both to the
running totals. -/
def aggregateStep (acc : ℚ × ℚ) (sub : Subscription) : ℚ × ℚ :=
  let monthlyCost := if sub.cycle = "yearly" then sub.cost / 12 else sub.cost
  let yearlyCost :=
    if sub.cycle = "yearly" then sub.cost
    else if sub.cycle = "monthly" then sub.cost * 12 else sub.cost
  (acc.1 + monthlyCost, acc.2 + yearlyCost)

/-- The totals recomputation of the snapshot callback:
`(calculatedMonthlyTotal, calculatedYearlyTotal)` after the forEach loop. -/
def recalcTotals (subs : List Subscription) : ℚ × ℚ :=
  subs.foldl aggregateStep (0, 0)

/-- The whole snapshot callback: store the delivered list and the recomputed
totals; nothing else in the state is touched. -/
def onSnapshotUpdate (s : AppState) (subs : List Subscription) : AppState :=
  { s with
    subscriptions := subs
    totalMonthlyCost := (recalcTotals subs).1
    totalYearlyCost := (recalcTotals subs).2 }

/-- Per-subscription monthly contribution as the code computes it. -/
def codeMonthlyEquiv (sub : Subscription) : ℚ :=
  if sub.cycle = "yearly" then sub.cost / 12 else sub.cost

/-- Per-subscription yearly contribution as the code computes it. -/
def codeYearlyEquiv (sub : Subscription) : ℚ :=
  if sub.cycle = "yearly" then sub.cost
  else if sub.cycle = "monthly" then sub.cost * 12 else sub.cost

/-- Monthly-equivalent as the specification words it: `cost` if
`cycle = monthly`, else `cost / 12`. -/
def specMonthlyEquiv (sub : Subscription) : ℚ :=
  if sub.cycle = "monthly" then sub.cost else sub.cost / 12

/-- Yearly-equivalent as the specification words it: `cost * 12` if
`cycle = monthly`, else `cost`. -/
def specYearlyEquiv (sub : Subscription) : ℚ :=
  if sub.cycle = "monthly" then sub.cost * 12 else sub.cost

/-- Models `x.toFixed(2)` as a rational: round to the nearest hundredth
(no displayed value in the spec is a tie, so the tie-breaking rule is moot). -/
def toFixed2 (q : ℚ) : ℚ :=
  (round (q * 100) : ℚ) / 100

/-! ### Form/Edit controller (handleSubmit, startEdit, cancel button) -/

/-- The document payload `newSubscription` built by `handleSubmit`
(code.jsx lines 119–124): note that it always carries a fresh `createdAt`,
also when it is used for an update. -/
structure WriteDoc where
  name : String
  cost : ℚ
  cycle : String
  createdAt : ℕ
deriving DecidableEq

/-- A store operation issued by a handler: `addDoc` or `updateDoc`. -/
inductive WriteOp where
  | create (d : WriteDoc)
  | update (id : String) (d : WriteDoc)
deriving DecidableEq

/-- `newSubscription` as built from the current form state at submit time
`now`: `{ name: formName, cost: parseFloat(formCost), cycle: formCycle,
createdAt: new Date() }`. -/
def submitDoc (s : AppState) (now : ℕ) : WriteDoc :=
  { name := s.formName
    cost := parseFloat s.formCost
    cycle := s.formCycle
    createdAt := now }

/-- The operation `handleSubmit` issues once validation passed: an update at
`editingId` when it is set, otherwise a create. -/
def submitOp (s : AppState) (now : ℕ) : WriteOp :=
  match s.editingId with
  | some eid => .update eid (submitDoc s now)
  | none => .create (submitDoc s now)

/-- Success message chosen by `handleSubmit`. -/
def submitMessage (s : AppState) : String :=
  if s.editingId.isSome then "Subscription updated successfully!"
  else "Subscription added successfully!"

/-- `handleSubmit` (code.jsx lines 108–148) as a function of the state, the
submit time, and whether the awaited store write succeeds.  Returns the new
state and the store operation issued, if any.

Control flow mirrored from the source: `!formName || !formCost` aborts with a
validation error; otherwise the write is issued, and only when it succeeds do
the form-resetting setters (lines 138–141) run — they sit inside the `try`
block after the `await`, so a failed write skips them and lands in `catch`,
which sets the failure message; `finally` clears `loading` either way. -/
def handleSubmit (s : AppState) (now : ℕ) (writeSucceeds : Bool) :
    AppState × Option WriteOp :=
  if s.formName = "" ∨ s.formCost.truthy = false then
    ({ s with error := "Please fill in both the name and cost." }, none)
  else
    let op := submitOp s now
    if writeSucceeds then
      ({ s with
          loading := false
          error := ""
          message := submitMessage s
          formName := ""
          formCost := .str ""
          formCycle := "monthly"
          editingId := none }, some op)
    else
      ({ s with
          loading := false
          error := "Failed to save subscription. Please try again." }, some op)

/-- Effect of a write on the stored collection, per the store interface of the
spec (`create(doc)` appends a document under a fresh id; `update(id, doc)`
overwrites the supplied fields of the document at `id`).  The payload carries
all four fields, so an update overwrites all four. -/
def applyWrite (store : List Subscription) (freshId : String) :
    WriteOp → List Subscription
  | .create d => store ++ [⟨freshId, d.name, d.cost, d.cycle, d.createdAt⟩]
  | .update i d =>
      store.map fun sub =>
        if sub.id = i then
          { sub with name := d.name, cost := d.cost, cycle := d.cycle,
                     createdAt := d.createdAt }
        else sub

/-- `startEdit` (code.jsx lines 151–156): copy the record's fields into the
form (the raw number lands in `formCost`) and set `editingId`.  It calls only
state setters — no store operation. -/
def startEdit (s : AppState) (sub : Subscription) : AppState :=
  { s with
    formName := sub.name
    formCost := .num sub.cost
    formCycle := sub.cycle
    editingId := some sub.id }

/-- The cancel button handler (code.jsx lines 275–280): clear the edit target
and reset the form to its defaults.  It calls only state setters — no store
operation. -/
def cancelEdit (s : AppState) : AppState :=
  { s with
    editingId := none
    formName := ""
    formCost := .str ""
    formCycle := "monthly" }

/-! ### Report generator (generateGeminiReport, code.jsx lines 175–214) -/

/-- `parts[i]` of a response candidate; every level of the JSON path may be
absent, matching the optional chaining in the code. -/
structure GeminiPart where
  text : Option String
deriving DecidableEq

/-- `content` of a response candidate. -/
structure GeminiContent where
  parts : Option (List GeminiPart)
deriving DecidableEq

/-- One entry of `candidates`. -/
structure GeminiCandidate where
  content : Option GeminiContent
deriving DecidableEq

/-- The parsed response body; `candidates` may be missing entirely. -/
structure GeminiBody where
  candidates : Option (List GeminiCandidate)
deriving DecidableEq

/-- The HTTP response of the text-generation endpoint as the code consumes
it: the `ok` flag, the status, and the parsed JSON body. -/
structure HttpResponse where
  ok : Bool
  status : ℕ
  body : GeminiBody
deriving DecidableEq

/-- The optional chain `result?.candidates?.[0]?.content?.parts?.[0]?.text`. -/
def extractText (body : GeminiBody) : Option String :=
  ((((body.candidates.bind List.head?).bind
      GeminiCandidate.content).bind
      GeminiContent.parts).bind List.head?).bind GeminiPart.text

/-- Error message set when report generation fails. -/
def reportFailureMsg : String := "Failed to generate report. Please try again later."

/-- `generateGeminiReport` as a function of the state and the HTTP response.
It first clears `error`, `message` and `geminiResponse` and sets `loading`
(lines 176–179), then branches: a non-ok response throws, otherwise the text
is extracted from the body and a falsy text (absent or empty) throws; `catch`
sets the failure message, `finally` clears `loading`.  The prompt string built
from the subscription list is sent to the endpoint but nothing in the state
depends on its content, so it is not modelled. -/
def generateGeminiReport (s : AppState) (resp : HttpResponse) : AppState :=
  let s0 := { s with loading := true, error := "", message := "", geminiResponse := none }
  let s1 :=
    if resp.ok = false then
      { s0 with error := reportFailureMsg }
    else
      match extractText resp.body with
      | some text =>
          if text = "" then { s0 with error := reportFailureMsg }
          else { s0 with geminiResponse := some text }
      | none => { s0 with error := reportFailureMsg }
  { s1 with loading := false }

/-! ### Concrete data used by witnesses and scenario claims -/

/-- The Netflix subscription of the spec scenario. -/
def netflixSub : Subscription :=
  { id := "n1", name := "Netflix", cost := 500, cycle := "monthly", createdAt := 0 }

/-- The Prime subscription of the spec scenario. -/
def primeSub : Subscription :=
  { id := "p1", name := "Prime", cost := 1499, cycle := "yearly", createdAt := 0 }

/-- The spec scenario snapshot. -/
def demoSubs : List Subscription := [netflixSub, primeSub]

/-- A subscription whose cycle is neither `monthly` nor `yearly`. -/
def weeklySub : Subscription :=
  { id := "w1", name := "Gym", cost := 100, cycle := "weekly", createdAt := 0 }

/-! ### Aggregator lemmas -/

/-- One aggregation step adds the per-subscription code equivalents. -/
theorem aggregateStep_eq (a b : ℚ) (sub : Subscription) :
    aggregateStep (a, b) sub = (a + codeMonthlyEquiv sub, b + codeYearlyEquiv sub) := rfl

/-- Generalised characterisation of the forEach loop. -/
theorem foldl_aggregateStep (subs : List Subscription) (a b : ℚ) :
    subs.foldl aggregateStep (a, b) =
      (a + (subs.map codeMonthlyEquiv).sum, b + (subs.map codeYearlyEquiv).sum) := by
  induction subs generalizing a b with
  | nil => simp
  | cons x xs ih =>
    simp only [List.foldl_cons, List.map_cons, List.sum_cons]
    rw [aggregateStep_eq, ih]
    simp only [Prod.mk.injEq]
    constructor <;> ring

/-- The recomputed totals are the sums of the per-subscription equivalents
the code computes. -/
theorem recalcTotals_eq (subs : List Subscription) :
    recalcTotals subs =
      ((subs.map codeMonthlyEquiv).sum, (subs.map codeYearlyEquiv).sum) := by
  unfold recalcTotals
  rw [foldl_aggregateStep]
  simp

/-- On cycles in the specified enum the code equivalents coincide with the
spec equivalents. -/
theorem codeEquiv_eq_specEquiv (sub : Subscription)
    (h : sub.cycle = "monthly" ∨ sub.cycle = "yearly") :
    codeMonthlyEquiv sub = specMonthlyEquiv sub ∧
      codeYearlyEquiv sub = specYearlyEquiv sub := by
  rcases h with h | h <;>
    simp [codeMonthlyEquiv, codeYearlyEquiv, specMonthlyEquiv, specYearlyEquiv, h]

/-- Claim C1: for every subscription set (cycles drawn from the specified
enum {monthly, yearly}), the snapshot callback stores the set and puts the
spec sums — Σ (cost if monthly else cost/12) and Σ (cost*12 if monthly else
cost) — into the two totals, touching nothing else in the state (pure,
no side effects). -/
theorem aggregator_matches_spec (s : AppState) (subs : List Subscription)
    (h : ∀ sub ∈ subs, sub.cycle = "monthly" ∨ sub.cycle = "yearly") :
    onSnapshotUpdate s subs =
      { s with
        subscriptions := subs
        totalMonthlyCost := (subs.map specMonthlyEquiv).sum
        totalYearlyCost := (subs.map specYearlyEquiv).sum } := by
  have hm : subs.map codeMonthlyEquiv = subs.map specMonthlyEquiv :=
    List.map_congr_left fun sub hs => (codeEquiv_eq_specEquiv sub (h sub hs)).1
  have hy : subs.map codeYearlyEquiv = subs.map specYearlyEquiv :=
    List.map_congr_left fun sub hs => (codeEquiv_eq_specEquiv sub (h sub hs)).2
  unfold onSnapshotUpdate
  rw [recalcTotals_eq, hm, hy]

/-- Witness for C1 at the two-element scenario snapshot. -/
theorem aggregator_matches_spec_witness :
    (∀ sub ∈ demoSubs, sub.cycle = "monthly" ∨ sub.cycle = "yearly") ∧
      onSnapshotUpdate initialState demoSubs =
        { initialState with
          subscriptions := demoSubs
          totalMonthlyCost := (demoSubs.map specMonthlyEquiv).sum
          totalYearlyCost := (demoSubs.map specYearlyEquiv).sum } :=
  ⟨by decide, aggregator_matches_spec initialState demoSubs (by decide)⟩

/-- Claim C7: an empty snapshot yields exactly 0 for both totals. -/
theorem empty_set_totals_zero (s : AppState) :
    (onSnapshotUpdate s []).totalMonthlyCost = 0 ∧
      (onSnapshotUpdate s []).totalYearlyCost = 0 :=
  ⟨rfl, rfl⟩

/-- Claim C9: a subscription whose cycle is neither `monthly` nor `yearly`
contributes its raw cost, unconverted, to both totals. -/
theorem unknown_cycle_contributes_raw (subs : List Subscription)
    (sub : Subscription) (h1 : sub.cycle ≠ "monthly") (h2 : sub.cycle ≠ "yearly") :
    recalcTotals (subs ++ [sub]) =
      ((recalcTotals subs).1 + sub.cost, (recalcTotals subs).2 + sub.cost) := by
  unfold recalcTotals
  rw [List.foldl_append, List.foldl_cons, List.foldl_nil]
  simp [aggregateStep, h1, h2]

/-- Witness for C9: a weekly subscription appended to the empty snapshot. -/
theorem unknown_cycle_contributes_raw_witness :
    weeklySub.cycle ≠ "monthly" ∧ weeklySub.cycle ≠ "yearly" ∧
      recalcTotals ([] ++ [weeklySub]) =
        ((recalcTotals []).1 + weeklySub.cost, (recalcTotals []).2 + weeklySub.cost) :=
  ⟨by decide, by decide,
    unknown_cycle_contributes_raw [] weeklySub (by decide) (by decide)⟩

/-- Claim C6: on the scenario snapshot [Netflix 500 monthly, Prime 1499
yearly] the totals are 500 + 1499/12 (which displays as 624.92 after
`toFixed(2)`) and 500*12 + 1499 = 7499. -/
theorem demo_scenario_totals :
    (recalcTotals demoSubs).1 = 500 + 1499 / 12 ∧
      toFixed2 (recalcTotals demoSubs).1 = 62492 / 100 ∧
      (recalcTotals demoSubs).2 = 500 * 12 + 1499 ∧
      (500 * 12 + 1499 : ℚ) = 7499 := by
  have hneq : ("monthly" : String) ≠ "yearly" := by decide
  have hm : (recalcTotals demoSubs).1 = 500 + 1499 / 12 := by
    rw [recalcTotals_eq]
    norm_num [demoSubs, netflixSub, primeSub, codeMonthlyEquiv, if_neg hneq]
  have hy : (recalcTotals demoSubs).2 = 500 * 12 + 1499 := by
    rw [recalcTotals_eq]
    norm_num [demoSubs, netflixSub, primeSub, codeYearlyEquiv, if_neg hneq]
  refine ⟨hm, ?_, hy, by norm_num⟩
  rw [hm]
  unfold toFixed2
  have h2 : round ((500 + 1499 / 12 : ℚ) * 100) = 62492 := by
    rw [round_eq, Int.floor_eq_iff]
    constructor <;> norm_num
  rw [h2]
  norm_num

/-! ### Form/Edit controller claims -/

/-- Claim C4: submitting with an empty name or an empty cost issues no write
(the store operation is `none`, so the store is unchanged) and sets the
validation error, leaving everything else as it was. -/
theorem empty_submit_no_write (s : AppState) (now : ℕ) (b : Bool)
    (h : s.formName = "" ∨ s.formCost = .str "") :
    handleSubmit s now b =
      ({ s with error := "Please fill in both the name and cost." }, none) := by
  have hc : s.formName = "" ∨ s.formCost.truthy = false := by
    rcases h with h | h
    · exact Or.inl h
    · exact Or.inr (by rw [h]; rfl)
  unfold handleSubmit
  rw [if_pos hc]

/-- Witness for C4: a filled cost but an empty name. -/
theorem empty_submit_no_write_witness :
    ({ initialState with formCost := JsVal.str "500" } : AppState).formName = "" ∧
      handleSubmit { initialState with formCost := JsVal.str "500" } 3 true =
        ({ initialState with
            formCost := JsVal.str "500"
            error := "Please fill in both the name and cost." }, none) :=
  ⟨rfl, empty_submit_no_write { initialState with formCost := JsVal.str "500" } 3 true
    (Or.inl rfl)⟩

/-- A filled-in form about to create a new subscription. -/
def filledState : AppState :=
  { initialState with formName := "Netflix", formCost := .str "500" }

/-- Counterexample to claim C3 as stated: when the awaited write FAILS, the
form is not cleared — `formName` is still "Netflix" and `formCost` still
"500" — contradicting "on completion of the write (whether it succeeds or
fails) clears name, cost, cycle, and the edit target". -/
theorem failed_write_leaves_form :
    (handleSubmit filledState 0 false).1.formName = "Netflix" ∧
      (handleSubmit filledState 0 false).1.formCost = JsVal.str "500" ∧
      ("Netflix" : String) ≠ "" := by
  refine ⟨rfl, rfl, by decide⟩

/-- Claim C3 (amended): with a non-empty name and a truthy cost, submitting
always issues the write — an update at `editingId` when set, otherwise a
create, with the cost run through `parseFloat`; on a SUCCESSFUL write it
clears name, cost, cycle (back to monthly) and the edit target regardless of
their prior values; on a FAILED write it leaves the form fields and edit
target untouched and sets the failure message. -/
theorem submit_valid_dispatch (s : AppState) (now : ℕ)
    (h1 : s.formName ≠ "") (h2 : s.formCost.truthy = true) :
    (∀ b, (handleSubmit s now b).2 = some (submitOp s now)) ∧
      (handleSubmit s now true).1 =
        { s with
          loading := false
          error := ""
          message := submitMessage s
          formName := ""
          formCost := .str ""
          formCycle := "monthly"
          editingId := none } ∧
      (handleSubmit s now false).1 =
        { s with
          loading := false
          error := "Failed to save subscription. Please try again." } := by
  have hc : ¬(s.formName = "" ∨ s.formCost.truthy = false) := by
    rintro (h | h)
    · exact h1 h
    · rw [h2] at h
      exact Bool.noConfusion h
  refine ⟨fun b => ?_, ?_, ?_⟩
  · unfold handleSubmit
    rw [if_neg hc]
    cases b <;> rfl
  · unfold handleSubmit
    rw [if_neg hc]
    rfl
  · unfold handleSubmit
    rw [if_neg hc]
    rfl

/-- Witness for C3's amended theorem at the concrete filled form. -/
theorem submit_valid_dispatch_witness :
    filledState.formName ≠ "" ∧ filledState.formCost.truthy = true ∧
      ((∀ b, (handleSubmit filledState 7 b).2 = some (submitOp filledState 7)) ∧
        (handleSubmit filledState 7 true).1 =
          { filledState with
            loading := false
            error := ""
            message := submitMessage filledState
            formName := ""
            formCost := .str ""
            formCycle := "monthly"
            editingId := none } ∧
        (handleSubmit filledState 7 false).1 =
          { filledState with
            loading := false
            error := "Failed to save subscription. Please try again." }) :=
  ⟨by decide, by decide, submit_valid_dispatch filledState 7 (by decide) (by decide)⟩

/-- A stored subscription created at time 100, about to be edited. -/
def storedSub : Subscription :=
  { id := "s1", name := "Netflix", cost := 500, cycle := "monthly", createdAt := 100 }

/-- The state while editing `storedSub` with a new cost of 450. -/
def editState : AppState :=
  { initialState with
    subscriptions := [storedSub]
    formName := "Netflix"
    formCost := .num 450
    formCycle := "monthly"
    editingId := some "s1" }

/-- Claim C2 evaluated at the failing input: submitting the edit of `storedSub`
(created at time 100) at time 200 issues an update whose payload carries
`createdAt = 200` — the code builds `newSubscription` with a fresh
`createdAt: new Date()` and passes it to `updateDoc` — so applying the write
overwrites the creation timestamp, contradicting "createdAt is set once at
creation and never mutated by any subsequent update". -/
theorem update_overwrites_createdAt :
    (handleSubmit editState 200 true).2 =
        some (.update "s1"
          { name := "Netflix", cost := 450, cycle := "monthly", createdAt := 200 }) ∧
      applyWrite [storedSub] "unused"
          (.update "s1"
            { name := "Netflix", cost := 450, cycle := "monthly", createdAt := 200 }) =
        [{ id := "s1", name := "Netflix", cost := 450, cycle := "monthly",
           createdAt := 200 }] ∧
      storedSub.createdAt = 100 ∧ (200 : ℕ) ≠ 100 := by
  refine ⟨by decide, by decide, rfl, by decide⟩

/-- Claim C8: starting an edit copies the record's name, cost and cycle into
the form and sets `editingId` to its id, without touching the subscription
list; cancelling afterwards restores the default empty form (empty name,
empty cost, cycle = monthly, no edit target) and changes nothing else — in
particular the stored record and the list are untouched, and neither handler
issues any store operation (their types carry no `WriteOp`). -/
theorem startEdit_cancel_roundtrip (s : AppState) (sub : Subscription) :
    (startEdit s sub).formName = sub.name ∧
      (startEdit s sub).formCost = JsVal.num sub.cost ∧
      (startEdit s sub).formCycle = sub.cycle ∧
      (startEdit s sub).editingId = some sub.id ∧
      (startEdit s sub).subscriptions = s.subscriptions ∧
      cancelEdit (startEdit s sub) =
        { s with
          formName := ""
          formCost := .str ""
          formCycle := "monthly"
          editingId := none } :=
  ⟨rfl, rfl, rfl, rfl, rfl, rfl⟩

/-! ### Report generator claims -/

/-- An HTTP 500 failure response. -/
def resp500 : HttpResponse :=
  { ok := false, status := 500, body := { candidates := none } }

/-- A 200 response whose body has no `candidates` field. -/
def respNoCandidates : HttpResponse :=
  { ok := true, status := 200, body := { candidates := none } }

/-- A state that already displays a previously generated report. -/
def oldReportState : AppState :=
  { initialState with
    subscriptions := demoSubs
    geminiResponse := some "Your previous spending report." }

/-- Helper: on any failing response the report generator lands in one fixed
failure state. -/
theorem generateGeminiReport_fail (s : AppState) (resp : HttpResponse)
    (h : resp.ok = false ∨ extractText resp.body = none) :
    generateGeminiReport s resp =
      { s with loading := false, error := reportFailureMsg, message := "",
               geminiResponse := none } := by
  rcases h with h | h
  · simp [generateGeminiReport, h]
  · rcases hok : resp.ok with _ | _
    · simp [generateGeminiReport, hok]
    · simp [generateGeminiReport, hok, h]

/-- Claim C5: on a non-ok response, or on a body from which the optional
chain `candidates[0].content.parts[0].text` yields nothing, report generation
sets the user-visible failure message and stores no report text; moreover the
resulting state is literally the one produced by an HTTP 500 failure, so a
200 response with a missing `candidates` field is treated identically to an
HTTP failure. -/
theorem report_failure_no_partial (s : AppState) (resp : HttpResponse)
    (h : resp.ok = false ∨ extractText resp.body = none) :
    (generateGeminiReport s resp).error = reportFailureMsg ∧
      (generateGeminiReport s resp).geminiResponse = none ∧
      generateGeminiReport s resp = generateGeminiReport s resp500 := by
  rw [generateGeminiReport_fail s resp h]
  refine ⟨rfl, rfl, rfl⟩

/-- Witness for C5 at the 200-with-missing-candidates scenario, starting from
a state that already shows a report. -/
theorem report_failure_no_partial_witness :
    (respNoCandidates.ok = false ∨ extractText respNoCandidates.body = none) ∧
      (generateGeminiReport oldReportState respNoCandidates).error = reportFailureMsg ∧
      (generateGeminiReport oldReportState respNoCandidates).geminiResponse = none ∧
      generateGeminiReport oldReportState respNoCandidates =
        generateGeminiReport oldReportState resp500 :=
  ⟨Or.inr rfl, report_failure_no_partial oldReportState respNoCandidates (Or.inr rfl)⟩

/-- Claim C10: report generation first clears the stored report text and the
transient message (and error) before consuming the response, so its result
does not depend on them — the run from any state coincides with the run from
the pre-cleared state — and after a failed invocation no report text is
displayed even if a successful report existed beforehand, and the transient
message is gone. -/
theorem report_clears_previous (s : AppState) (resp : HttpResponse) :
    generateGeminiReport s resp =
        generateGeminiReport
          { s with geminiResponse := none, message := "", error := "" } resp ∧
      ((resp.ok = false ∨ extractText resp.body = none) →
        (generateGeminiReport s resp).geminiResponse = none ∧
          (generateGeminiReport s resp).message = "") := by
  constructor
  · rfl
  · intro h
    rw [generateGeminiReport_fail s resp h]
    exact ⟨rfl, rfl⟩

/-- Witness for C10: an HTTP 500 failure hitting a state that already shows a
report wipes both the report text and the transient message. -/
theorem report_clears_previous_witness :
    (resp500.ok = false ∨ extractText resp500.body = none) ∧
      (generateGeminiReport oldReportState resp500).geminiResponse = none ∧
      (generateGeminiReport oldReportState resp500).message = "" :=
  ⟨Or.inl rfl, (report_clears_previous oldReportState resp500).2 (Or.inl rfl)⟩

end Subtrack
